import Mathlib

/-!
Verification of the glucogard risk-assessment core.

The definitions below are a shallow embedding of the two questionnaire
flows found in the repository:

* the "smart" flow (`generateRiskScore`, `getRiskCategory`,
  `generateRecommendations`, `submitAssessment`), and
* the "basic" flow (`generateRiskPrediction`, `basicRecommendations`,
  `handleSymptomToggle`).

JavaScript's `parseInt` / `parseFloat` are modelled over decimal digit
strings with optional sign and (for floats) a fractional part; a `none`
result plays the role of `NaN` (every `NaN` comparison in the source is
false, which the embedding realises by giving the `none` branch the
points of the failed comparison, namely 0).  Numeric values are modelled
with `ℚ`; the only division performed by the source is guarded by the
JavaScript truthiness test `weight && height`, so no division by zero is
reachable in the guarded branch.
-/

namespace Glucogard

/-- Numeric value of a decimal digit character, `none` otherwise. -/
def charDigit (c : Char) : Option Nat :=
  if c.isDigit then some (c.toNat - 48) else none

/-- Split a character list into its longest digit prefix and the rest. -/
def takeDigits : List Char → List Nat × List Char
  | [] => ([], [])
  | c :: cs =>
    match charDigit c with
    | some d => let p := takeDigits cs; (d :: p.1, p.2)
    | none => ([], c :: cs)

/-- Value of a most-significant-first digit list. -/
def digitsToNat (ds : List Nat) : Nat :=
  ds.foldl (fun acc d => acc * 10 + d) 0

/-- Integer prefix parse after the sign has been stripped; `none` models `NaN`
(no digits at all). -/
def parseIntCore (cs : List Char) (sign : Int) : Option Int :=
  match takeDigits cs with
  | ([], _) => none
  | (ds, _) => some (sign * (digitsToNat ds : Int))

/-- Model of JavaScript `parseInt` on decimal input: optional sign followed by
the longest digit prefix; `none` models `NaN`. -/
def parseIntJS (s : String) : Option Int :=
  match s.data with
  | '-' :: cs => parseIntCore cs (-1)
  | '+' :: cs => parseIntCore cs 1
  | cs => parseIntCore cs 1

/-- Float prefix parse after the sign has been stripped: digits, optionally a
point and more digits; `none` models `NaN` (no digits on either side). -/
def parseFloatCore (cs : List Char) (sign : ℚ) : Option ℚ :=
  let p := takeDigits cs
  match p.2 with
  | '.' :: rest =>
    let f := takeDigits rest
    if p.1 = [] ∧ f.1 = [] then none
    else some (sign * ((digitsToNat p.1 : ℚ) + (digitsToNat f.1 : ℚ) / (10 : ℚ) ^ f.1.length))
  | _ => if p.1 = [] then none else some (sign * (digitsToNat p.1 : ℚ))

/-- Model of JavaScript `parseFloat` on decimal input. -/
def parseFloatJS (s : String) : Option ℚ :=
  match s.data with
  | '-' :: cs => parseFloatCore cs (-1)
  | '+' :: cs => parseFloatCore cs 1
  | cs => parseFloatCore cs 1

/-- JavaScript `answers.x || d` on an optional string field: `undefined` and
the empty string (the two falsy cases that occur) fall back to the default. -/
def jsOrDefault (v : Option String) (d : String) : String :=
  match v with
  | none => d
  | some s => if s = "" then d else s

/-- Answer store of the smart-assessment flow (`answers: Record<string, any>`):
the fields read by `generateRiskScore` and `generateRecommendations`, each
`none` when the question was never answered. -/
structure AnswerStore where
  age : Option String := none
  weight : Option String := none
  height : Option String := none
  familyHistory : Option String := none
  activityLevel : Option String := none
  dietHabits : Option String := none
  symptoms : Option (List String) := none
  smoking : Option String := none
  stressLevel : Option String := none
  sleepQuality : Option String := none
  deriving DecidableEq

/-- Age factor of `generateRiskScore`: `parseInt(answers.age || '0')`,
then `>= 45 → 20`, `>= 35 → 10`. A `NaN` age fails both comparisons. -/
def agePoints (ageAns : Option String) : Nat :=
  match parseIntJS (jsOrDefault ageAns "0") with
  | none => 0
  | some n => if 45 ≤ n then 20 else if 35 ≤ n then 10 else 0

/-- BMI factor of `generateRiskScore`: weight and height parsed with
`parseFloat(... || '0')`, height converted from cm to m, computed only under
the truthiness guard `weight && height` (both parsed and non-zero). -/
def bmiPoints (weightAns heightAns : Option String) : Nat :=
  match parseFloatJS (jsOrDefault weightAns "0"),
        parseFloatJS (jsOrDefault heightAns "0") with
  | some w, some hcm =>
    let height := hcm / 100
    if w ≠ 0 ∧ height ≠ 0 then
      let bmi := w / (height * height)
      if 30 ≤ bmi then 25 else if 25 ≤ bmi then 15 else 0
    else 0
  | _, _ => 0

/-- Family-history factor: `answers['family-history'] === 'yes'` adds 15. -/
def familyHistoryPoints (v : Option String) : Nat :=
  if v = some "yes" then 15 else 0

/-- Activity factor: sedentary adds 15, light adds 10. -/
def activityPoints (v : Option String) : Nat :=
  if v = some "sedentary" then 15 else if v = some "light" then 10 else 0

/-- Diet factor of the smart flow: poor adds 15, fair adds 10. -/
def dietPoints (v : Option String) : Nat :=
  if v = some "poor" then 15 else if v = some "fair" then 10 else 0

/-- Symptom factor of the smart flow: `answers.symptoms || []`, then
`symptoms.length * 5` is added only when the list does not contain "none". -/
def symptomPoints (v : Option (List String)) : Nat :=
  let symptoms := v.getD []
  if "none" ∈ symptoms then 0 else symptoms.length * 5

/-- Smoking factor: current adds 10, former adds 5. -/
def smokingPoints (v : Option String) : Nat :=
  if v = some "current" then 10 else if v = some "former" then 5 else 0

/-- Stress factor: `parseInt(answers['stress-level'] || '1')`, then
`>= 8 → 10`, `>= 6 → 5`. -/
def stressPoints (v : Option String) : Nat :=
  match parseIntJS (jsOrDefault v "1") with
  | none => 0
  | some n => if 8 ≤ n then 10 else if 6 ≤ n then 5 else 0

/-- Sleep factor: poor adds 10, fair adds 5. -/
def sleepPoints (v : Option String) : Nat :=
  if v = some "poor" then 10 else if v = some "fair" then 5 else 0

/-- Risk scorer of the smart flow (`generateRiskScore` in the smart
assessment screen): the factor points accumulate and the result is
`Math.min(score, 100)`. -/
def generateRiskScore (a : AnswerStore) : Nat :=
  min (agePoints a.age + bmiPoints a.weight a.height
    + familyHistoryPoints a.familyHistory + activityPoints a.activityLevel
    + dietPoints a.dietHabits + symptomPoints a.symptoms
    + smokingPoints a.smoking + stressPoints a.stressLevel
    + sleepPoints a.sleepQuality) 100

/-- Three-level risk category. -/
inductive RiskCategory
  | low
  | moderate
  | critical
  deriving DecidableEq, Repr

/-- Category thresholds (`getRiskCategory` in the smart assessment screen). -/
def getRiskCategory (score : Nat) : RiskCategory :=
  if score < 30 then RiskCategory.low
  else if score < 70 then RiskCategory.moderate
  else RiskCategory.critical

/-- Recommendation tag. -/
inductive RecType
  | lifestyle
  | clinical
  deriving DecidableEq, Repr

/-- A generated recommendation (content plus lifestyle/clinical tag). -/
structure Recommendation where
  content : String
  recType : RecType
  deriving DecidableEq, Repr

/-- Activity recommendation of the smart flow. -/
def activityRec : Recommendation :=
  ⟨"Start with 10-minute walks after meals. Gradually increase to 30 minutes of daily activity.",
   RecType.lifestyle⟩

/-- Diet recommendation of the smart flow. -/
def dietRec : Recommendation :=
  ⟨"Focus on whole foods: vegetables, lean proteins, and whole grains. Limit processed foods and sugary drinks.",
   RecType.lifestyle⟩

/-- Urgent-consultation recommendation of the smart flow (critical risk). -/
def urgentRec : Recommendation :=
  ⟨"Schedule an appointment with a healthcare provider within 2 weeks for comprehensive diabetes screening.",
   RecType.clinical⟩

/-- Routine-screening recommendation of the smart flow (moderate risk). -/
def routineRec : Recommendation :=
  ⟨"Consider annual diabetes screening and maintain regular check-ups with your healthcare provider.",
   RecType.clinical⟩

/-- Stress-management recommendation of the smart flow. -/
def stressRec : Recommendation :=
  ⟨"Practice stress management techniques like deep breathing, meditation, or yoga for 10 minutes daily.",
   RecType.lifestyle⟩

/-- Stress condition of the recommendation generator:
`parseInt(answers['stress-level'] || '1') >= 7`. -/
def stressAtLeast7 (v : Option String) : Bool :=
  match parseIntJS (jsOrDefault v "1") with
  | none => false
  | some n => 7 ≤ n

/-- Recommendation generator of the smart flow (`generateRecommendations`):
four independent rules pushed in source order — activity, diet, risk
category (critical / moderate), stress. -/
def generateRecommendations (a : AnswerStore) (riskCategory : RiskCategory) :
    List Recommendation :=
  (if a.activityLevel = some "sedentary" then [activityRec] else [])
  ++ (if a.dietHabits = some "poor" then [dietRec] else [])
  ++ (if riskCategory = RiskCategory.critical then [urgentRec]
      else if riskCategory = RiskCategory.moderate then [routineRec] else [])
  ++ (if stressAtLeast7 a.stressLevel then [stressRec] else [])

/-- Form data of the basic assessment flow (`HealthFormData`): every text
field is initialised to the empty string, symptoms to the empty list. -/
structure HealthFormData where
  age : String := ""
  gender : String := ""
  weight : String := ""
  height : String := ""
  activityLevel : String := ""
  dietaryHabits : String := ""
  familyHistory : String := ""
  symptoms : List String := []
  smokingStatus : String := ""
  alcoholConsumption : String := ""
  deriving DecidableEq

/-- Age factor of the basic flow: `parseInt(data.age)` with no default. -/
def basicAgePoints (s : String) : Nat :=
  match parseIntJS s with
  | none => 0
  | some n => if 45 ≤ n then 20 else if 35 ≤ n then 10 else 0

/-- BMI factor of the basic flow: `parseFloat(data.weight)` and
`parseFloat(data.height) / 100` under the guard `weight && height`. -/
def basicBmiPoints (weightAns heightAns : String) : Nat :=
  match parseFloatJS weightAns, parseFloatJS heightAns with
  | some w, some hcm =>
    let height := hcm / 100
    if w ≠ 0 ∧ height ≠ 0 then
      let bmi := w / (height * height)
      if 30 ≤ bmi then 25 else if 25 ≤ bmi then 15 else 0
    else 0
  | _, _ => 0

/-- Symptom factor of the basic flow:
`data.symptoms.length > 0 && !data.symptoms.includes('None of the above')`
adds `length * 5`. -/
def basicSymptomPoints (symptoms : List String) : Nat :=
  if 0 < symptoms.length ∧ "None of the above" ∉ symptoms then
    symptoms.length * 5
  else 0

/-- Diet factor of the basic flow: poor adds 10, fair adds 5. -/
def basicDietPoints (v : String) : Nat :=
  if v = "poor" then 10 else if v = "fair" then 5 else 0

/-- Result of `generateRiskPrediction`. -/
structure RiskPrediction where
  riskScore : Nat
  category : RiskCategory
  deriving DecidableEq, Repr

/-- Risk predictor of the basic flow (`generateRiskPrediction`): the same
factor accumulation with the simpler diet weights, no stress or sleep factor,
capped at 100, and the category computed inline with the same thresholds. -/
def generateRiskPrediction (data : HealthFormData) : RiskPrediction :=
  let riskScore :=
    min (basicAgePoints data.age + basicBmiPoints data.weight data.height
      + (if data.familyHistory = "yes" then 15 else 0)
      + (if data.activityLevel = "sedentary" then 15
         else if data.activityLevel = "light" then 10 else 0)
      + basicSymptomPoints data.symptoms
      + (if data.smokingStatus = "current" then 10
         else if data.smokingStatus = "former" then 5 else 0)
      + basicDietPoints data.dietaryHabits) 100
  let category :=
    if riskScore < 30 then RiskCategory.low
    else if riskScore < 70 then RiskCategory.moderate
    else RiskCategory.critical
  ⟨riskScore, category⟩

/-- Urgent-consultation recommendation of the basic flow. -/
def basicUrgentRec : Recommendation :=
  ⟨"Immediate medical consultation recommended. Please see a healthcare provider within 48 hours for comprehensive diabetes screening.",
   RecType.clinical⟩

/-- Activity recommendation of the basic flow. -/
def basicActivityRec : Recommendation :=
  ⟨"Increase physical activity to at least 150 minutes of moderate exercise per week. Start with 10-minute walks after meals.",
   RecType.lifestyle⟩

/-- Diet recommendation of the basic flow. -/
def basicDietRec : Recommendation :=
  ⟨"Adopt a balanced diet rich in vegetables, lean proteins, and whole grains. Limit processed foods and sugary beverages.",
   RecType.lifestyle⟩

/-- Recommendation list built inline by the basic flow's `submitAssessment`:
critical clinical item first, then activity, then diet. -/
def basicRecommendations (data : HealthFormData) (category : RiskCategory) :
    List Recommendation :=
  (if category = RiskCategory.critical then [basicUrgentRec] else [])
  ++ (if data.activityLevel = "sedentary" then [basicActivityRec] else [])
  ++ (if data.dietaryHabits = "poor" then [basicDietRec] else [])

/-- Symptom-checkbox toggle of the basic flow (`handleSymptomToggle`). -/
def handleSymptomToggle (symptoms : List String) (symptom : String) :
    List String :=
  if symptom = "None of the above" then
    if symptom ∈ symptoms then [] else [symptom]
  else
    if symptom ∈ symptoms then
      symptoms.filter (fun s => s != symptom && s != "None of the above")
    else
      symptoms.filter (fun s => s != "None of the above") ++ [symptom]

/-- Outcome reported by the submit handler: the success alert or the error
alert carrying the thrown message. -/
inductive SubmitOutcome
  | success
  | failure (message : String)
  deriving DecidableEq, Repr

/-- Results of the external store calls made by the smart flow's
`submitAssessment`, one per awaited step: the patient lookup (`null` data when
no row is found) and the three inserts (each either succeeding or returning
an error that the source rethrows). -/
structure SubmitEnv where
  patientData : Option Nat
  submissionInsert : Except String Nat
  predictionInsert : Except String Unit
  recommendationInsert : Except String Unit

/-- Component state touched by the smart flow's `submitAssessment`: the
answer store held in the `answers` state hook and the `loading` flag. -/
structure ScreenState where
  answers : AnswerStore
  loading : Bool
  deriving DecidableEq

/-- Submit handler of the smart flow (`submitAssessment`): sets `loading`,
runs the lookup and the three inserts in order inside `try`, rethrows the
first failure to the `catch` (which only shows an alert), and clears
`loading` in `finally`.  No step writes to the `answers` state. -/
def submitAssessment (st : ScreenState) (env : SubmitEnv) :
    ScreenState × SubmitOutcome :=
  let stStarted : ScreenState := { st with loading := true }
  let outcome : SubmitOutcome :=
    match env.patientData with
    | none => SubmitOutcome.failure "Patient record not found"
    | some _patientId =>
      let riskScore := generateRiskScore st.answers
      let riskCategory := getRiskCategory riskScore
      match env.submissionInsert with
      | Except.error e => SubmitOutcome.failure e
      | Except.ok _submissionId =>
        match env.predictionInsert with
        | Except.error e => SubmitOutcome.failure e
        | Except.ok _ =>
          let recommendations := generateRecommendations st.answers riskCategory
          if 0 < recommendations.length then
            match env.recommendationInsert with
            | Except.error e => SubmitOutcome.failure e
            | Except.ok _ => SubmitOutcome.success
          else SubmitOutcome.success
  ({ stStarted with loading := false }, outcome)

/-! Spec-side definitions.  The following definitions transcribe the claim
wording (the §4.4 factor table read as a sum of independent rows) and exist
only to be compared with the code-side definitions above. -/

/-- Age rows of the claimed factor table: age at least 45 adds 20 and age
35 to 44 adds 10, over the same parsed age as the code. -/
def specAgeRow (ageAns : Option String) : Nat :=
  match parseIntJS (jsOrDefault ageAns "0") with
  | none => 0
  | some n => (if 45 ≤ n then 20 else 0) + (if 35 ≤ n ∧ n ≤ 44 then 10 else 0)

/-- BMI rows of the claimed factor table: BMI = weight_kg / (height_m)²,
at least 30 adds 25 and 25 to 29.99 adds 15 (read as 25 ≤ BMI < 30); a
non-numeric weight or height leaves the rows at 0, and the rational
convention `x / 0 = 0` places a zero height below both thresholds. -/
def specBmiRow (weightAns heightAns : Option String) : Nat :=
  match parseFloatJS (jsOrDefault weightAns "0"),
        parseFloatJS (jsOrDefault heightAns "0") with
  | some w, some hcm =>
    let bmi := w / (hcm / 100 * (hcm / 100))
    (if 30 ≤ bmi then 25 else 0) + (if 25 ≤ bmi ∧ bmi < 30 then 15 else 0)
  | _, _ => 0

/-- Family-history row of the claimed factor table. -/
def specFamilyRow (v : Option String) : Nat :=
  if v = some "yes" then 15 else 0

/-- Activity rows of the claimed factor table. -/
def specActivityRow (v : Option String) : Nat :=
  (if v = some "sedentary" then 15 else 0) + (if v = some "light" then 10 else 0)

/-- Diet rows of the claimed factor table, full form: poor adds 15 and fair
adds 10. -/
def specDietRow (v : Option String) : Nat :=
  (if v = some "poor" then 15 else 0) + (if v = some "fair" then 10 else 0)

/-- Smoking rows of the claimed factor table. -/
def specSmokingRow (v : Option String) : Nat :=
  (if v = some "current" then 10 else 0) + (if v = some "former" then 5 else 0)

/-- Stress rows of the claimed factor table: at least 8 adds 10, 6 to 7
adds 5, over the same parsed stress level as the code. -/
def specStressRow (v : Option String) : Nat :=
  match parseIntJS (jsOrDefault v "1") with
  | none => 0
  | some n => (if 8 ≤ n then 10 else 0) + (if 6 ≤ n ∧ n ≤ 7 then 5 else 0)

/-- Sleep rows of the claimed factor table. -/
def specSleepRow (v : Option String) : Nat :=
  (if v = some "poor" then 10 else 0) + (if v = some "fair" then 5 else 0)

/-- Risk score as claim C1 words it for the smart flow: the sum of the factor
rows, clamped above at 100.  C1 does not enumerate the symptom row, so the
symptom contribution is the code's (its own wording is settled as C4). -/
def specC1Score (a : AnswerStore) : Nat :=
  min (specAgeRow a.age + specBmiRow a.weight a.height
    + specFamilyRow a.familyHistory + specActivityRow a.activityLevel
    + specDietRow a.dietHabits + symptomPoints a.symptoms
    + specSmokingRow a.smoking + specStressRow a.stressLevel
    + specSleepRow a.sleepQuality) 100

/-- Age rows applied to the basic flow's field (parsed with no default). -/
def specBasicAgeRow (s : String) : Nat :=
  match parseIntJS s with
  | none => 0
  | some n => (if 45 ≤ n then 20 else 0) + (if 35 ≤ n ∧ n ≤ 44 then 10 else 0)

/-- BMI rows applied to the basic flow's fields (parsed with no default). -/
def specBasicBmiRow (weightAns heightAns : String) : Nat :=
  match parseFloatJS weightAns, parseFloatJS heightAns with
  | some w, some hcm =>
    let bmi := w / (hcm / 100 * (hcm / 100))
    (if 30 ≤ bmi then 25 else 0) + (if 25 ≤ bmi ∧ bmi < 30 then 15 else 0)
  | _, _ => 0

/-- Diet rows of the claimed factor table, simpler form: poor adds 10 and
fair adds 5. -/
def specBasicDietRow (v : String) : Nat :=
  (if v = "poor" then 10 else 0) + (if v = "fair" then 5 else 0)

/-- Risk score as claim C1 words it for the basic flow: the factor rows that
exist in that form (the basic form has no stress or sleep answer), diet in
the simpler +10/+5 form, symptom row from the code, clamped at 100. -/
def specC1BasicScore (data : HealthFormData) : Nat :=
  min (specBasicAgeRow data.age + specBasicBmiRow data.weight data.height
    + specFamilyRow (some data.familyHistory)
    + specActivityRow (some data.activityLevel)
    + basicSymptomPoints data.symptoms
    + specSmokingRow (some data.smokingStatus)
    + specBasicDietRow data.dietaryHabits) 100

/-- Symptom contribution as claim C4 words it: +5 for each selected symptom
other than the "none" option, regardless of which other options appear. -/
def specC4SymptomPoints (symptoms : List String) : Nat :=
  5 * (symptoms.filter (fun s => s != "none")).length

/-- Concrete answer store of the spec's first worked scenario: age 50,
weight 90 kg, height 170 cm, family history yes, sedentary, poor diet, no
symptoms, never smoked, stress level 3, good sleep. -/
def scenarioAnswers : AnswerStore :=
  { age := some "50", weight := some "90", height := some "170",
    familyHistory := some "yes", activityLevel := some "sedentary",
    dietHabits := some "poor", symptoms := some [], smoking := some "never",
    stressLevel := some "3", sleepQuality := some "good" }

/-! Helper lemmas. -/

/-- The smart flow's age factor agrees with the table rows. -/
theorem agePoints_eq_row (v : Option String) : agePoints v = specAgeRow v := by
  unfold agePoints specAgeRow
  cases parseIntJS (jsOrDefault v "0") with
  | none => rfl
  | some n =>
    dsimp only
    split_ifs <;> omega

/-- The smart flow's stress factor agrees with the table rows. -/
theorem stressPoints_eq_row (v : Option String) : stressPoints v = specStressRow v := by
  unfold stressPoints specStressRow
  cases parseIntJS (jsOrDefault v "1") with
  | none => rfl
  | some n =>
    dsimp only
    split_ifs <;> omega

/-- The smart flow's family-history factor agrees with the table row. -/
theorem familyHistoryPoints_eq_row (v : Option String) :
    familyHistoryPoints v = specFamilyRow v := rfl

/-- The smart flow's activity factor agrees with the table rows. -/
theorem activityPoints_eq_row (v : Option String) :
    activityPoints v = specActivityRow v := by
  unfold activityPoints specActivityRow
  split_ifs <;> simp_all

/-- The smart flow's diet factor agrees with the table rows. -/
theorem dietPoints_eq_row (v : Option String) : dietPoints v = specDietRow v := by
  unfold dietPoints specDietRow
  split_ifs <;> simp_all

/-- The smart flow's smoking factor agrees with the table rows. -/
theorem smokingPoints_eq_row (v : Option String) :
    smokingPoints v = specSmokingRow v := by
  unfold smokingPoints specSmokingRow
  split_ifs <;> simp_all

/-- The smart flow's sleep factor agrees with the table rows. -/
theorem sleepPoints_eq_row (v : Option String) : sleepPoints v = specSleepRow v := by
  unfold sleepPoints specSleepRow
  split_ifs <;> simp_all

/-- The cascaded BMI conditional equals the sum of the two table rows. -/
theorem bmiRowSplit (b : ℚ) :
    (if 30 ≤ b then 25 else if 25 ≤ b then (15 : Nat) else 0)
      = (if 30 ≤ b then 25 else 0) + (if 25 ≤ b ∧ b < 30 then 15 else 0) := by
  rcases le_or_lt 30 b with h | h
  · rw [if_pos h, if_pos h, if_neg (fun hc => absurd h (not_le.mpr hc.2))]
  · rw [if_neg (not_le.mpr h), if_neg (not_le.mpr h)]
    rcases le_or_lt 25 b with h2 | h2
    · rw [if_pos h2, if_pos ⟨h2, h⟩]
    · rw [if_neg (not_le.mpr h2), if_neg (fun hc => absurd hc.1 (not_le.mpr h2))]

/-- The smart flow's BMI factor agrees with the table rows: the truthiness
guard of the source coincides with the rational convention of the rows. -/
theorem bmiPoints_eq_row (w h : Option String) : bmiPoints w h = specBmiRow w h := by
  unfold bmiPoints specBmiRow
  cases parseFloatJS (jsOrDefault w "0") with
  | none => cases parseFloatJS (jsOrDefault h "0") <;> rfl
  | some wq =>
    cases parseFloatJS (jsOrDefault h "0") with
    | none => rfl
    | some hq =>
      dsimp only
      by_cases hw0 : wq = 0
      · subst hw0
        rw [if_neg (fun hc => hc.1 rfl)]
        norm_num
      · by_cases hh0 : hq = 0
        · subst hh0
          rw [if_neg (fun hc => hc.2 (by norm_num))]
          norm_num
        · have hgd : hq / 100 ≠ 0 := by
            simp [div_eq_zero_iff, hh0]
          rw [if_pos ⟨hw0, hgd⟩]
          exact bmiRowSplit _

/-- The basic flow's age factor agrees with the table rows. -/
theorem basicAgePoints_eq_row (s : String) : basicAgePoints s = specBasicAgeRow s := by
  unfold basicAgePoints specBasicAgeRow
  cases parseIntJS s with
  | none => rfl
  | some n =>
    dsimp only
    split_ifs <;> omega

/-- The basic flow's BMI factor agrees with the table rows. -/
theorem basicBmiPoints_eq_row (w h : String) :
    basicBmiPoints w h = specBasicBmiRow w h := by
  unfold basicBmiPoints specBasicBmiRow
  cases parseFloatJS w with
  | none => cases parseFloatJS h <;> rfl
  | some wq =>
    cases parseFloatJS h with
    | none => rfl
    | some hq =>
      dsimp only
      by_cases hw0 : wq = 0
      · subst hw0
        rw [if_neg (fun hc => hc.1 rfl)]
        norm_num
      · by_cases hh0 : hq = 0
        · subst hh0
          rw [if_neg (fun hc => hc.2 (by norm_num))]
          norm_num
        · have hgd : hq / 100 ≠ 0 := by
            simp [div_eq_zero_iff, hh0]
          rw [if_pos ⟨hw0, hgd⟩]
          exact bmiRowSplit _

/-- The basic flow's diet factor agrees with the simpler table rows. -/
theorem basicDietPoints_eq_row (s : String) : basicDietPoints s = specBasicDietRow s := by
  unfold basicDietPoints specBasicDietRow
  split_ifs <;> simp_all

/-- The basic flow's inline family-history conditional as a table row. -/
theorem basicFamily_eq_row (s : String) :
    (if s = "yes" then (15 : Nat) else 0) = specFamilyRow (some s) := by
  simp [specFamilyRow]

/-- The basic flow's inline activity conditional as table rows. -/
theorem basicActivity_eq_row (s : String) :
    (if s = "sedentary" then (15 : Nat) else if s = "light" then 10 else 0)
      = specActivityRow (some s) := by
  unfold specActivityRow
  split_ifs <;> simp_all

/-- The basic flow's inline smoking conditional as table rows. -/
theorem basicSmoking_eq_row (s : String) :
    (if s = "current" then (10 : Nat) else if s = "former" then 5 else 0)
      = specSmokingRow (some s) := by
  unfold specSmokingRow
  split_ifs <;> simp_all

end Glucogard
namespace Glucogard

theorem riskScore_factors_mono (a b : AnswerStore)
    (h1 : agePoints a.age ≤ agePoints b.age)
    (h2 : bmiPoints a.weight a.height ≤ bmiPoints b.weight b.height)
    (h3 : familyHistoryPoints a.familyHistory ≤ familyHistoryPoints b.familyHistory)
    (h4 : activityPoints a.activityLevel ≤ activityPoints b.activityLevel)
    (h5 : dietPoints a.dietHabits ≤ dietPoints b.dietHabits)
    (h6 : symptomPoints a.symptoms ≤ symptomPoints b.symptoms)
    (h7 : smokingPoints a.smoking ≤ smokingPoints b.smoking)
    (h8 : stressPoints a.stressLevel ≤ stressPoints b.stressLevel)
    (h9 : sleepPoints a.sleepQuality ≤ sleepPoints b.sleepQuality) :
    generateRiskScore a ≤ generateRiskScore b := by
  unfold generateRiskScore
  omega

theorem riskScore_age_mono (a : AnswerStore) (s1 s2 : Option String) (n1 n2 : Int)
    (hp1 : parseIntJS (jsOrDefault s1 "0") = some n1)
    (hp2 : parseIntJS (jsOrDefault s2 "0") = some n2) (hle : n1 ≤ n2) :
    generateRiskScore { a with age := s1 } ≤ generateRiskScore { a with age := s2 } := by
  refine riskScore_factors_mono _ _ ?_ (le_refl _) (le_refl _) (le_refl _) (le_refl _)
    (le_refl _) (le_refl _) (le_refl _) (le_refl _)
  show agePoints s1 ≤ agePoints s2
  unfold agePoints
  rw [hp1, hp2]
  dsimp only
  split_ifs <;> omega

theorem riskScore_stress_mono (a : AnswerStore) (s1 s2 : Option String) (n1 n2 : Int)
    (hp1 : parseIntJS (jsOrDefault s1 "1") = some n1)
    (hp2 : parseIntJS (jsOrDefault s2 "1") = some n2) (hle : n1 ≤ n2) :
    generateRiskScore { a with stressLevel := s1 }
      ≤ generateRiskScore { a with stressLevel := s2 } := by
  refine riskScore_factors_mono _ _ (le_refl _) (le_refl _) (le_refl _) (le_refl _)
    (le_refl _) (le_refl _) (le_refl _) ?_ (le_refl _)
  show stressPoints s1 ≤ stressPoints s2
  unfold stressPoints
  rw [hp1, hp2]
  dsimp only
  split_ifs <;> omega

theorem riskScore_weight_mono (a : AnswerStore) (s1 s2 : Option String) (q1 q2 : ℚ)
    (hp1 : parseFloatJS (jsOrDefault s1 "0") = some q1)
    (hp2 : parseFloatJS (jsOrDefault s2 "0") = some q2) (hle : q1 ≤ q2) :
    generateRiskScore { a with weight := s1 } ≤ generateRiskScore { a with weight := s2 } := by
  refine riskScore_factors_mono _ _ (le_refl _) ?_ (le_refl _) (le_refl _) (le_refl _)
    (le_refl _) (le_refl _) (le_refl _) (le_refl _)
  show bmiPoints s1 a.height ≤ bmiPoints s2 a.height
  unfold bmiPoints
  rw [hp1, hp2]
  cases parseFloatJS (jsOrDefault a.height "0") with
  | none => exact le_refl 0
  | some hq =>
    dsimp only
    by_cases hgd : hq / 100 = 0
    · rw [if_neg (show ¬(q1 ≠ 0 ∧ hq / 100 ≠ 0) from fun hc => hc.2 hgd),
        if_neg (show ¬(q2 ≠ 0 ∧ hq / 100 ≠ 0) from fun hc => hc.2 hgd)]
    · have hpos : 0 < hq / 100 * (hq / 100) := mul_self_pos.mpr hgd
      by_cases h1 : q1 = 0
      · rw [if_neg (show ¬(q1 ≠ 0 ∧ hq / 100 ≠ 0) from fun hc => hc.1 h1)]
        exact Nat.zero_le _
      · rw [if_pos (show q1 ≠ 0 ∧ hq / 100 ≠ 0 from ⟨h1, hgd⟩)]
        by_cases h2 : q2 = 0
        · have hq1neg : q1 < 0 := lt_of_le_of_ne (h2 ▸ hle) h1
          have hbmi : q1 / (hq / 100 * (hq / 100)) < 0 :=
            div_neg_of_neg_of_pos hq1neg hpos
          rw [if_neg (show ¬(q2 ≠ 0 ∧ hq / 100 ≠ 0) from fun hc => hc.1 h2),
            if_neg (show ¬(30 : ℚ) ≤ q1 / (hq / 100 * (hq / 100)) by linarith),
            if_neg (show ¬(25 : ℚ) ≤ q1 / (hq / 100 * (hq / 100)) by linarith)]
        · rw [if_pos (show q2 ≠ 0 ∧ hq / 100 ≠ 0 from ⟨h2, hgd⟩)]
          have hb : q1 / (hq / 100 * (hq / 100)) ≤ q2 / (hq / 100 * (hq / 100)) :=
            (div_le_div_iff_of_pos_right hpos).mpr hle
          split_ifs <;> first | omega | (exfalso; linarith)

theorem riskScore_symptom_append_mono (a : AnswerStore) (syms : List String)
    (sym : String) (hs : sym ≠ "none") :
    generateRiskScore { a with symptoms := some syms }
      ≤ generateRiskScore { a with symptoms := some (syms ++ [sym]) } := by
  refine riskScore_factors_mono _ _ (le_refl _) (le_refl _) (le_refl _) (le_refl _)
    (le_refl _) ?_ (le_refl _) (le_refl _) (le_refl _)
  show symptomPoints (some syms) ≤ symptomPoints (some (syms ++ [sym]))
  unfold symptomPoints
  dsimp only [Option.getD_some]
  by_cases hn : "none" ∈ syms
  · rw [if_pos hn, if_pos (List.mem_append_left _ hn)]
  · have hn2 : "none" ∉ syms ++ [sym] := by
      intro hmem
      rcases List.mem_append.mp hmem with h | h
      · exact hn h
      · exact hs (List.mem_singleton.mp h).symm
    rw [if_neg hn, if_neg hn2]
    simp [List.length_append]

/-! Claim theorems. -/

/-- C1: the smart flow's risk score equals the weighted sum of the claimed
factor table (full diet weights 15/10) clamped at 100, and the basic flow's
risk score equals the weighted sum of the same table restricted to its
fields, with the simpler diet weights 10/5, clamped at 100. -/
theorem C1_riskScore_is_factor_table :
    (∀ a : AnswerStore, generateRiskScore a = specC1Score a)
    ∧ (∀ d : HealthFormData, (generateRiskPrediction d).riskScore = specC1BasicScore d) := by
  constructor
  · intro a
    unfold generateRiskScore specC1Score
    rw [agePoints_eq_row, bmiPoints_eq_row, familyHistoryPoints_eq_row,
      activityPoints_eq_row, dietPoints_eq_row, smokingPoints_eq_row,
      stressPoints_eq_row, sleepPoints_eq_row]
  · intro d
    unfold generateRiskPrediction specC1BasicScore
    dsimp only
    rw [basicAgePoints_eq_row, basicBmiPoints_eq_row, basicDietPoints_eq_row,
      basicFamily_eq_row, basicActivity_eq_row, basicSmoking_eq_row]

/-- C2: the smart-flow score is a deterministic function bounded by 100 (it
is a `Nat`, hence at least 0), the category thresholds are 30 and 70, and
the basic flow's inline category equals `getRiskCategory` of its score. -/
theorem C2_score_range_and_thresholds :
    (∀ a : AnswerStore, generateRiskScore a ≤ 100)
    ∧ (∀ s : Nat, s < 30 → getRiskCategory s = RiskCategory.low)
    ∧ (∀ s : Nat, 30 ≤ s → s < 70 → getRiskCategory s = RiskCategory.moderate)
    ∧ (∀ s : Nat, 70 ≤ s → getRiskCategory s = RiskCategory.critical)
    ∧ (∀ d : HealthFormData, (generateRiskPrediction d).riskScore ≤ 100
        ∧ (generateRiskPrediction d).category
            = getRiskCategory (generateRiskPrediction d).riskScore) := by
  refine ⟨fun a => Nat.min_le_right _ _, fun s hs => if_pos hs, ?_, ?_, ?_⟩
  · intro s h30 h70
    unfold getRiskCategory
    rw [if_neg (by omega), if_pos h70]
  · intro s h70
    unfold getRiskCategory
    rw [if_neg (by omega), if_neg (by omega)]
  · intro d
    exact ⟨Nat.min_le_right _ _, rfl⟩

/-- C2 witness: the theorem applied at scores 5, 45 and 80. -/
theorem C2_witness :
    getRiskCategory 5 = RiskCategory.low
    ∧ getRiskCategory 45 = RiskCategory.moderate
    ∧ getRiskCategory 80 = RiskCategory.critical :=
  ⟨C2_score_range_and_thresholds.2.1 5 (by decide),
   C2_score_range_and_thresholds.2.2.1 45 (by decide) (by decide),
   C2_score_range_and_thresholds.2.2.2.1 80 (by decide)⟩

/-- C3: on the concrete scenario (age 50, weight 90, height 170, family
history yes, sedentary, poor diet, no symptoms, never smoked, stress 3,
good sleep) the smart flow scores exactly 90, the category is critical, and
the generated list holds exactly one clinical item (the urgent consult) and
exactly two lifestyle items (activity and diet). -/
theorem C3_concrete_scenario :
    generateRiskScore scenarioAnswers = 90
    ∧ getRiskCategory 90 = RiskCategory.critical
    ∧ (generateRecommendations scenarioAnswers RiskCategory.critical).filter
        (fun r => r.recType == RecType.clinical) = [urgentRec]
    ∧ (generateRecommendations scenarioAnswers RiskCategory.critical).filter
        (fun r => r.recType == RecType.lifestyle) = [activityRec, dietRec] := by
  with_unfolding_all decide

/-- C7: the smart-flow score is monotone: factor-wise dominance gives a
dominated score, and increasing the parsed age, the parsed stress level or
the parsed weight, or appending one more (non-"none") symptom, while all
other answers are held fixed, never decreases the score; in particular age
30 → 40 → 50 never decreases it. -/
theorem C7_score_monotone :
    (∀ a b : AnswerStore,
      agePoints a.age ≤ agePoints b.age →
      bmiPoints a.weight a.height ≤ bmiPoints b.weight b.height →
      familyHistoryPoints a.familyHistory ≤ familyHistoryPoints b.familyHistory →
      activityPoints a.activityLevel ≤ activityPoints b.activityLevel →
      dietPoints a.dietHabits ≤ dietPoints b.dietHabits →
      symptomPoints a.symptoms ≤ symptomPoints b.symptoms →
      smokingPoints a.smoking ≤ smokingPoints b.smoking →
      stressPoints a.stressLevel ≤ stressPoints b.stressLevel →
      sleepPoints a.sleepQuality ≤ sleepPoints b.sleepQuality →
      generateRiskScore a ≤ generateRiskScore b)
    ∧ (∀ (a : AnswerStore) (s1 s2 : Option String) (n1 n2 : Int),
        parseIntJS (jsOrDefault s1 "0") = some n1 →
        parseIntJS (jsOrDefault s2 "0") = some n2 → n1 ≤ n2 →
        generateRiskScore { a with age := s1 } ≤ generateRiskScore { a with age := s2 })
    ∧ (∀ (a : AnswerStore) (s1 s2 : Option String) (n1 n2 : Int),
        parseIntJS (jsOrDefault s1 "1") = some n1 →
        parseIntJS (jsOrDefault s2 "1") = some n2 → n1 ≤ n2 →
        generateRiskScore { a with stressLevel := s1 }
          ≤ generateRiskScore { a with stressLevel := s2 })
    ∧ (∀ (a : AnswerStore) (s1 s2 : Option String) (q1 q2 : ℚ),
        parseFloatJS (jsOrDefault s1 "0") = some q1 →
        parseFloatJS (jsOrDefault s2 "0") = some q2 → q1 ≤ q2 →
        generateRiskScore { a with weight := s1 }
          ≤ generateRiskScore { a with weight := s2 })
    ∧ (∀ (a : AnswerStore) (syms : List String) (sym : String), sym ≠ "none" →
        generateRiskScore { a with symptoms := some syms }
          ≤ generateRiskScore { a with symptoms := some (syms ++ [sym]) })
    ∧ (∀ a : AnswerStore,
        generateRiskScore { a with age := some "30" }
            ≤ generateRiskScore { a with age := some "40" }
        ∧ generateRiskScore { a with age := some "40" }
            ≤ generateRiskScore { a with age := some "50" }) :=
  ⟨riskScore_factors_mono, riskScore_age_mono, riskScore_stress_mono,
   riskScore_weight_mono, riskScore_symptom_append_mono,
   fun a => ⟨riskScore_age_mono a (some "30") (some "40") 30 40
       (by decide) (by decide) (by decide),
     riskScore_age_mono a (some "40") (some "50") 40 50
       (by decide) (by decide) (by decide)⟩⟩

/-- C7 witness: the monotonicity theorem applied at concrete inputs. -/
theorem C7_witness :
    generateRiskScore { age := some "30" } ≤ generateRiskScore { age := some "50" }
    ∧ generateRiskScore { stressLevel := some "2" }
        ≤ generateRiskScore { stressLevel := some "9" }
    ∧ generateRiskScore { symptoms := some ["Fatigue"] }
        ≤ generateRiskScore { symptoms := some ["Fatigue", "Blurred vision"] } :=
  ⟨C7_score_monotone.2.1 {} (some "30") (some "50") 30 50 (by decide) (by decide)
      (by decide),
   C7_score_monotone.2.2.1 {} (some "2") (some "9") 2 9 (by decide) (by decide)
      (by decide),
   C7_score_monotone.2.2.2.2.1 {} ["Fatigue"] "Blurred vision" (by decide)⟩

/-- C4 counterexample: with the symptom list ["Fatigue", "none"], the claim
predicts a +5 contribution for the one symptom besides the "none" option,
but both scorers contribute 0 as soon as the "none" option is present. -/
theorem C4_counterexample_none_with_other :
    symptomPoints (some ["Fatigue", "none"]) = 0
    ∧ specC4SymptomPoints ["Fatigue", "none"] = 5
    ∧ symptomPoints (some ["Fatigue", "none"]) ≠ specC4SymptomPoints ["Fatigue", "none"]
    ∧ basicSymptomPoints ["Fatigue", "None of the above"] = 0 := by
  decide

/-- C4 amended: each selected symptom contributes +5 only when the "none"
option is absent from the list (then the contribution is 5·k for its k
entries, all of which are then symptoms); when the "none" option appears
anywhere in the list the whole symptom contribution is 0, even if other
symptoms are also selected.  The last conjunct ties the symptom factor into
the smart flow's score. -/
theorem C4_amended_symptom_rule :
    (∀ syms : List String, "none" ∉ syms → symptomPoints (some syms) = 5 * syms.length)
    ∧ (∀ syms : List String, "none" ∈ syms → symptomPoints (some syms) = 0)
    ∧ (∀ syms : List String, "None of the above" ∉ syms →
        basicSymptomPoints syms = 5 * syms.length)
    ∧ (∀ syms : List String, "None of the above" ∈ syms → basicSymptomPoints syms = 0)
    ∧ (∀ a : AnswerStore, generateRiskScore a
        = min (agePoints a.age + bmiPoints a.weight a.height
          + familyHistoryPoints a.familyHistory + activityPoints a.activityLevel
          + dietPoints a.dietHabits + symptomPoints a.symptoms
          + smokingPoints a.smoking + stressPoints a.stressLevel
          + sleepPoints a.sleepQuality) 100) := by
  refine ⟨?_, ?_, ?_, ?_, fun a => rfl⟩
  · intro syms h
    unfold symptomPoints
    dsimp only [Option.getD_some]
    rw [if_neg h, Nat.mul_comm]
  · intro syms h
    unfold symptomPoints
    dsimp only [Option.getD_some]
    rw [if_pos h]
  · intro syms h
    unfold basicSymptomPoints
    cases syms with
    | nil => rfl
    | cons x xs => rw [if_pos ⟨by simp, h⟩, Nat.mul_comm]
  · intro syms h
    unfold basicSymptomPoints
    rw [if_neg (fun hc => hc.2 h)]

/-- C4 witness: the amended rule applied to the singleton list ["Fatigue"]. -/
theorem C4_witness :
    symptomPoints (some ["Fatigue"]) = 5 * (["Fatigue"] : List String).length :=
  C4_amended_symptom_rule.1 ["Fatigue"] (by decide)

/-- C5: the smart flow's recommendation rules fire independently with no
early exit: the list contains the urgent clinical item exactly when the
category is critical, the routine clinical item exactly when it is moderate,
the activity lifestyle item exactly when the activity level is sedentary,
the diet lifestyle item exactly when the diet is poor, and the
stress-management lifestyle item exactly when the parsed stress level is at
least 7; the list is empty exactly when no rule matches. -/
theorem C5_recommendation_rules :
    ∀ (a : AnswerStore) (cat : RiskCategory),
      (urgentRec ∈ generateRecommendations a cat ↔ cat = RiskCategory.critical)
      ∧ (routineRec ∈ generateRecommendations a cat ↔ cat = RiskCategory.moderate)
      ∧ (activityRec ∈ generateRecommendations a cat ↔ a.activityLevel = some "sedentary")
      ∧ (dietRec ∈ generateRecommendations a cat ↔ a.dietHabits = some "poor")
      ∧ (stressRec ∈ generateRecommendations a cat ↔ stressAtLeast7 a.stressLevel = true)
      ∧ (generateRecommendations a cat = [] ↔
          cat ≠ RiskCategory.critical ∧ cat ≠ RiskCategory.moderate
          ∧ a.activityLevel ≠ some "sedentary" ∧ a.dietHabits ≠ some "poor"
          ∧ stressAtLeast7 a.stressLevel = false) := by
  intro a cat
  rcases cat <;>
    by_cases h1 : a.activityLevel = some "sedentary" <;>
    by_cases h2 : a.dietHabits = some "poor" <;>
    by_cases h3 : stressAtLeast7 a.stressLevel = true <;>
    simp [generateRecommendations, h1, h2, h3, activityRec, dietRec, urgentRec,
      routineRec, stressRec, Recommendation.mk.injEq]

/-- C6 counterexample: with a sedentary answer store and critical category,
the smart flow's list contains a clinical item but its first element is the
activity lifestyle item, so the clinical item is not first. -/
theorem C6_counterexample_lifestyle_first :
    urgentRec ∈ generateRecommendations { activityLevel := some "sedentary" }
        RiskCategory.critical
    ∧ urgentRec.recType = RecType.clinical
    ∧ (generateRecommendations { activityLevel := some "sedentary" }
        RiskCategory.critical).head? = some activityRec
    ∧ activityRec.recType = RecType.lifestyle
    ∧ (generateRecommendations { activityLevel := some "sedentary" }
        RiskCategory.critical).head? ≠ some urgentRec := by
  decide

/-- C6 amended: in the basic flow's submit the clinical item, when present,
is the first element of the list; in the smart flow's generator a clinical
item is instead preceded only by lifestyle items (activity, diet) and
followed only by the stress-management item. -/
theorem C6_amended_clinical_position :
    (∀ (d : HealthFormData) (cat : RiskCategory) (i : Nat),
      i < (basicRecommendations d cat).length →
      ((basicRecommendations d cat).getD i ⟨"", RecType.lifestyle⟩).recType
          = RecType.clinical →
      i = 0)
    ∧ (∀ (a : AnswerStore) (cat : RiskCategory) (i : Nat),
      i < (generateRecommendations a cat).length →
      ((generateRecommendations a cat).getD i ⟨"", RecType.lifestyle⟩).recType
          = RecType.clinical →
      (∀ j : Nat, j < (generateRecommendations a cat).length → j < i →
        ((generateRecommendations a cat).getD j ⟨"", RecType.lifestyle⟩).recType
          = RecType.lifestyle)
      ∧ (∀ j : Nat, j < (generateRecommendations a cat).length → i < j →
        (generateRecommendations a cat).getD j ⟨"", RecType.lifestyle⟩ = stressRec)) := by
  constructor
  · intro d cat
    rcases cat <;>
      by_cases h1 : d.activityLevel = "sedentary" <;>
      by_cases h2 : d.dietaryHabits = "poor" <;>
      simp [basicRecommendations, h1, h2] <;>
      decide
  · intro a cat
    rcases cat <;>
      by_cases h1 : a.activityLevel = some "sedentary" <;>
      by_cases h2 : a.dietHabits = some "poor" <;>
      by_cases h3 : stressAtLeast7 a.stressLevel = true <;>
      simp [generateRecommendations, h1, h2, h3] <;>
      decide

/-- C6 witness: the amended rule applied to the basic flow at a sedentary
critical submission, whose clinical item sits at index 0. -/
theorem C6_witness :
    0 < (basicRecommendations { activityLevel := "sedentary" }
        RiskCategory.critical).length
    ∧ ((basicRecommendations { activityLevel := "sedentary" }
        RiskCategory.critical).getD 0 ⟨"", RecType.lifestyle⟩).recType
        = RecType.clinical
    ∧ (0 : Nat) = 0 :=
  ⟨by decide, by decide,
   C6_amended_clinical_position.1 { activityLevel := "sedentary" }
     RiskCategory.critical 0 (by decide) (by decide)⟩

/-- A missing weight answer yields zero BMI points, whatever the height. -/
theorem bmiPoints_missing_weight (h : Option String) : bmiPoints none h = 0 := by
  unfold bmiPoints
  rw [show parseFloatJS (jsOrDefault none "0") = some 0 by with_unfolding_all rfl]
  cases parseFloatJS (jsOrDefault h "0") with
  | none => rfl
  | some hq =>
    dsimp only
    rw [if_neg (fun hc => hc.1 rfl)]

/-- A missing height answer yields zero BMI points, whatever the weight. -/
theorem bmiPoints_missing_height (w : Option String) : bmiPoints w none = 0 := by
  unfold bmiPoints
  rw [show parseFloatJS (jsOrDefault none "0") = some 0 by with_unfolding_all rfl]
  cases parseFloatJS (jsOrDefault w "0") with
  | none => rfl
  | some wq =>
    dsimp only
    rw [if_neg (fun hc => hc.2 (by norm_num))]

/-- C8: the smart-flow scorer is total and every missing, empty or
non-numeric field contributes its zero-risk default: the all-missing store
scores 0, each factor evaluates to 0 on a missing answer, a missing stress
level behaves exactly like the lowest level "1", and the score is the
factor sum capped at 100. -/
theorem C8_total_with_zero_defaults :
    generateRiskScore {} = 0
    ∧ agePoints none = 0 ∧ agePoints (some "") = 0 ∧ agePoints (some "abc") = 0
    ∧ (∀ h : Option String, bmiPoints none h = 0)
    ∧ (∀ w : Option String, bmiPoints w none = 0)
    ∧ bmiPoints (some "abc") (some "170") = 0
    ∧ familyHistoryPoints none = 0
    ∧ activityPoints none = 0
    ∧ dietPoints none = 0
    ∧ symptomPoints none = 0
    ∧ smokingPoints none = 0
    ∧ stressPoints none = 0
    ∧ stressPoints none = stressPoints (some "1")
    ∧ sleepPoints none = 0
    ∧ (∀ a : AnswerStore, generateRiskScore a
        = min (agePoints a.age + bmiPoints a.weight a.height
          + familyHistoryPoints a.familyHistory + activityPoints a.activityLevel
          + dietPoints a.dietHabits + symptomPoints a.symptoms
          + smokingPoints a.smoking + stressPoints a.stressLevel
          + sleepPoints a.sleepQuality) 100) := by
  refine ⟨by with_unfolding_all decide, by decide, by decide, by decide,
    bmiPoints_missing_weight, bmiPoints_missing_height,
    by with_unfolding_all decide, rfl, rfl, rfl, rfl, rfl, by decide, by decide,
    rfl, fun a => rfl⟩

/-- C9: whenever the smart flow's submit handler ends in a failure alert, the
answer store held in component state is unchanged, and with it the
recomputed risk score, category and recommendations, so a retry reproduces
them without re-answering. -/
theorem C9_failed_submit_preserves_state :
    ∀ (st : ScreenState) (env : SubmitEnv) (msg : String),
      (submitAssessment st env).2 = SubmitOutcome.failure msg →
      (submitAssessment st env).1.answers = st.answers
      ∧ generateRiskScore (submitAssessment st env).1.answers
          = generateRiskScore st.answers
      ∧ getRiskCategory (generateRiskScore (submitAssessment st env).1.answers)
          = getRiskCategory (generateRiskScore st.answers)
      ∧ ∀ cat : RiskCategory,
          generateRecommendations (submitAssessment st env).1.answers cat
            = generateRecommendations st.answers cat :=
  fun _st _env _msg _hfail => ⟨rfl, rfl, rfl, fun _cat => rfl⟩

/-- C9 witness: a submit whose patient lookup returns no row fails and
leaves the empty answer store intact. -/
theorem C9_witness :
    (submitAssessment ⟨{}, false⟩
        ⟨none, Except.ok 1, Except.ok (), Except.ok ()⟩).1.answers
      = ({} : AnswerStore) :=
  (C9_failed_submit_preserves_state ⟨{}, false⟩
      ⟨none, Except.ok 1, Except.ok (), Except.ok ()⟩
      "Patient record not found" rfl).1

/-- One symptom toggle preserves the invariant that the "None of the above"
entry only ever appears alone. -/
theorem handleSymptomToggle_none_alone (l : List String) (s : String)
    (h : "None of the above" ∈ l → l = ["None of the above"]) :
    "None of the above" ∈ handleSymptomToggle l s →
      handleSymptomToggle l s = ["None of the above"] := by
  unfold handleSymptomToggle
  by_cases hs : s = "None of the above"
  · rw [if_pos hs]
    by_cases hm : s ∈ l
    · rw [if_pos hm]
      intro hmem
      exact absurd hmem (List.not_mem_nil _)
    · rw [if_neg hm]
      intro _
      rw [hs]
  · rw [if_neg hs]
    by_cases hm : s ∈ l
    · rw [if_pos hm]
      intro hmem
      have hp := (List.mem_filter.mp hmem).2
      simp at hp
    · rw [if_neg hm]
      intro hmem
      exfalso
      rcases List.mem_append.mp hmem with hf | hx
      · have hp := (List.mem_filter.mp hf).2
        simp at hp
      · exact hs (List.mem_singleton.mp hx).symm

/-- Any toggle sequence preserves the "None of the above is alone"
invariant. -/
theorem foldl_toggle_none_alone (toggles : List String) (l : List String)
    (h : "None of the above" ∈ l → l = ["None of the above"]) :
    "None of the above" ∈ toggles.foldl handleSymptomToggle l →
      toggles.foldl handleSymptomToggle l = ["None of the above"] := by
  induction toggles generalizing l with
  | nil => exact h
  | cons t ts ih =>
    simp only [List.foldl_cons]
    exact ih (handleSymptomToggle l t) (handleSymptomToggle_none_alone l t h)

/-- C10: starting from the empty list, after any sequence of symptom toggles
the list never contains "None of the above" together with another entry;
toggling "None of the above" on replaces the whole list with just that
entry, and toggling any other symptom on removes "None of the above". -/
theorem C10_none_option_exclusive :
    (∀ toggles : List String,
      "None of the above" ∈ toggles.foldl handleSymptomToggle [] →
        toggles.foldl handleSymptomToggle [] = ["None of the above"])
    ∧ (∀ l : List String, "None of the above" ∉ l →
        handleSymptomToggle l "None of the above" = ["None of the above"])
    ∧ (∀ (l : List String) (s : String), s ≠ "None of the above" →
        "None of the above" ∉ handleSymptomToggle l s) := by
  refine ⟨fun toggles =>
    foldl_toggle_none_alone toggles []
      (fun hmem => absurd hmem (List.not_mem_nil _)), ?_, ?_⟩
  · intro l h
    unfold handleSymptomToggle
    rw [if_pos rfl, if_neg h]
  · intro l s hs
    unfold handleSymptomToggle
    rw [if_neg hs]
    by_cases hm : s ∈ l
    · rw [if_pos hm]
      intro hmem
      have hp := (List.mem_filter.mp hmem).2
      simp at hp
    · rw [if_neg hm]
      intro hmem
      rcases List.mem_append.mp hmem with hf | hx
      · have hp := (List.mem_filter.mp hf).2
        simp at hp
      · exact hs (List.mem_singleton.mp hx).symm

/-- C10 witness: toggling "Fatigue" and then "None of the above" from the
empty list leaves exactly the "None of the above" entry. -/
theorem C10_witness :
    (["Fatigue", "None of the above"] : List String).foldl handleSymptomToggle []
      = ["None of the above"] :=
  C10_none_option_exclusive.1 ["Fatigue", "None of the above"] (by decide)

end Glucogard
